import Mathlib

/-!
Verification of the Bay Navigator safety subsystem (`SafetyService` and
`SafetyProvider` from `lib/services/safety_service.dart` and
`lib/providers/safety_provider.dart`): a shallow embedding of the
preference-backed safety state engine and its notification facade, with
theorems about history handling, incognito sessions, quick exit, network
classification and error behaviour.

Two store models are used.  `Prefs`/`ServiceState` embeds the engine over a
total preference store (every read and write succeeds; an absent key is
`none`), which is the semantics relevant to the state-machine claims.
`ExnPrefs` embeds the same preference interface with `Except`-valued
operations, mirroring Dart futures that may complete with an error, and is
used for the error-propagation and facade-notification claims.
-/

/-- A quick-exit destination from the static catalog
(`QuickExitDestination` in the source). -/
structure QuickExitDestination where
  id : String
  name : String
  url : String
  description : String
deriving DecidableEq, Repr

/-- The static quick-exit catalog (`SafetyService.defaultDestinations`). -/
def defaultDestinations : List QuickExitDestination :=
  [ { id := "google", name := "Google", url := "https://www.google.com",
      description := "Opens Google search" },
    { id := "weather", name := "Weather.gov", url := "https://www.weather.gov",
      description := "Opens weather forecast" },
    { id := "news", name := "AP News", url := "https://apnews.com",
      description := "Opens news website" },
    { id := "recipes", name := "AllRecipes", url := "https://www.allrecipes.com",
      description := "Opens recipe website" } ]

/-- A safety tip (`SafetyTip` in the source); the Flutter `IconData` is
modelled by the icon's name. -/
structure SafetyTip where
  icon : String
  title : String
  description : String
deriving DecidableEq, Repr

/-- A disguised app icon (`DisguisedAppIcon` in the source); `IconData` is
modelled by the icon name and `Color` by its ARGB value. -/
structure DisguisedAppIcon where
  id : String
  name : String
  androidActivityAlias : String
  iosIconName : String
  iconData : String
  backgroundColor : Nat
deriving DecidableEq, Repr

/-- The static disguised-icon catalog (`SafetyService.disguisedIcons`). -/
def disguisedIcons : List DisguisedAppIcon :=
  [ { id := "calculator", name := "Calculator",
      androidActivityAlias := ".CalculatorAlias", iosIconName := "CalculatorIcon",
      iconData := "calculate_outlined", backgroundColor := 0xFF424242 },
    { id := "notes", name := "My Notes",
      androidActivityAlias := ".NotesAlias", iosIconName := "NotesIcon",
      iconData := "note_outlined", backgroundColor := 0xFFFFC107 },
    { id := "weather", name := "Weather",
      androidActivityAlias := ".WeatherAlias", iosIconName := "WeatherIcon",
      iconData := "wb_sunny_outlined", backgroundColor := 0xFF2196F3 },
    { id := "utilities", name := "Utilities",
      androidActivityAlias := ".UtilitiesAlias", iosIconName := "UtilitiesIcon",
      iconData := "build_outlined", backgroundColor := 0xFF607D8B },
    { id := "files", name := "Files",
      androidActivityAlias := ".FilesAlias", iosIconName := "FilesIcon",
      iconData := "folder_outlined", backgroundColor := 0xFF4CAF50 } ]

/-- Result of a disguise operation (`DisguiseResult` in the source). -/
structure DisguiseResult where
  success : Bool
  message : String
  requiresRestart : Bool
deriving DecidableEq, Repr

/-- Connectivity transport kinds reported by the connectivity plugin
(`ConnectivityResult` of connectivity_plus). -/
inductive ConnectivityResult
  | bluetooth
  | wifi
  | ethernet
  | mobile
  | none
  | vpn
  | other
deriving DecidableEq, Repr

/-- Network privacy level (`NetworkPrivacyLevel` in the source). -/
inductive NetworkPrivacyLevel
  | good
  | moderate
  | caution
  | offline
  | unknown
deriving DecidableEq, Repr

/-- Network privacy status (`NetworkPrivacyStatus` in the source). -/
structure NetworkPrivacyStatus where
  level : NetworkPrivacyLevel
  connectionType : String
  warning : Option String
  suggestion : Option String
deriving DecidableEq, Repr

/-- The host platform, as far as the source distinguishes it
(`Platform.isAndroid` / `Platform.isIOS`). -/
inductive Platform
  | android
  | ios
  | other
deriving DecidableEq, Repr

/-- The persisted key-value entries owned by the safety engine, one optional
field per preference key; `none` models an absent key.  Field order follows
the key constants at the top of `SafetyService`. -/
structure Prefs where
  quickExitEnabled : Option Bool := Option.none
  quickExitUrl : Option String := Option.none
  incognitoMode : Option Bool := Option.none
  showSafetyTips : Option Bool := Option.none
  networkWarnings : Option Bool := Option.none
  recentPrograms : Option (List String) := Option.none
  searchHistory : Option (List String) := Option.none
  disguisedMode : Option Bool := Option.none
  disguisedIcon : Option String := Option.none
deriving DecidableEq, Repr

/-- In-memory state of `SafetyService`: the preference store plus the
transient incognito-session flag and the two session-only history lists. -/
structure ServiceState where
  prefs : Prefs := {}
  isIncognitoSession : Bool := false
  sessionRecentPrograms : List String := []
  sessionSearchHistory : List String := []
deriving DecidableEq, Repr

/-- Fresh service state: empty store, no incognito session, empty lists. -/
def ServiceState.initial : ServiceState := {}

/-- `SafetyService.isQuickExitEnabled`: persisted flag, default `false`. -/
def isQuickExitEnabled (s : ServiceState) : Bool :=
  s.prefs.quickExitEnabled.getD false

/-- `SafetyService.setQuickExitEnabled`. -/
def setQuickExitEnabled (enabled : Bool) (s : ServiceState) : ServiceState :=
  { s with prefs := { s.prefs with quickExitEnabled := some enabled } }

/-- `SafetyService.getQuickExitUrl`: persisted URL, defaulting to
`defaultDestinations[0].url`. -/
def getQuickExitUrl (s : ServiceState) : String :=
  s.prefs.quickExitUrl.getD (defaultDestinations.get ⟨0, by decide⟩).url

/-- `SafetyService.setQuickExitUrl`: persists the string verbatim. -/
def setQuickExitUrl (url : String) (s : ServiceState) : ServiceState :=
  { s with prefs := { s.prefs with quickExitUrl := some url } }

/-- `SafetyService.isIncognitoModeEnabled`: persisted flag, default `false`. -/
def isIncognitoModeEnabled (s : ServiceState) : Bool :=
  s.prefs.incognitoMode.getD false

/-- `SafetyService.clearAllHistory`: removes both persisted history keys and
clears both session lists. -/
def clearAllHistory (s : ServiceState) : ServiceState :=
  { s with
    prefs := { s.prefs with recentPrograms := Option.none, searchHistory := Option.none }
    sessionRecentPrograms := []
    sessionSearchHistory := [] }

/-- `SafetyService.setIncognitoModeEnabled`: persists the flag, mirrors it
into the session flag, and purges all history when enabling. -/
def setIncognitoModeEnabled (enabled : Bool) (s : ServiceState) : ServiceState :=
  let s1 : ServiceState :=
    { s with
      prefs := { s.prefs with incognitoMode := some enabled }
      isIncognitoSession := enabled }
  if enabled then clearAllHistory s1 else s1

/-- `SafetyService.startIncognitoSession`: transient flag on, session lists
cleared. -/
def startIncognitoSession (s : ServiceState) : ServiceState :=
  { s with
    isIncognitoSession := true
    sessionRecentPrograms := []
    sessionSearchHistory := [] }

/-- `SafetyService.endIncognitoSession`: transient flag off, session lists
cleared. -/
def endIncognitoSession (s : ServiceState) : ServiceState :=
  { s with
    isIncognitoSession := false
    sessionRecentPrograms := []
    sessionSearchHistory := [] }

/-- `SafetyService.addRecentProgram`: session list (cap 10, insert only when
absent) during an incognito session; otherwise persisted list (remove first
occurrence, insert at front, cap 20). -/
def addRecentProgram (programId : String) (s : ServiceState) : ServiceState :=
  if s.isIncognitoSession then
    if s.sessionRecentPrograms.contains programId then s
    else
      let l := programId :: s.sessionRecentPrograms
      { s with sessionRecentPrograms := if l.length > 10 then l.dropLast else l }
  else
    let recent := s.prefs.recentPrograms.getD []
    let recent := recent.erase programId
    let recent := programId :: recent
    let recent := if recent.length > 20 then recent.dropLast else recent
    { s with prefs := { s.prefs with recentPrograms := some recent } }

/-- `SafetyService.getRecentPrograms`. -/
def getRecentPrograms (s : ServiceState) : List String :=
  if s.isIncognitoSession then s.sessionRecentPrograms
  else s.prefs.recentPrograms.getD []

/-- `SafetyService.addSearchQuery`: same shape as `addRecentProgram` on the
search-history lists. -/
def addSearchQuery (query : String) (s : ServiceState) : ServiceState :=
  if s.isIncognitoSession then
    if s.sessionSearchHistory.contains query then s
    else
      let l := query :: s.sessionSearchHistory
      { s with sessionSearchHistory := if l.length > 10 then l.dropLast else l }
  else
    let history := s.prefs.searchHistory.getD []
    let history := history.erase query
    let history := query :: history
    let history := if history.length > 20 then history.dropLast else history
    { s with prefs := { s.prefs with searchHistory := some history } }

/-- `SafetyService.getSearchHistory`. -/
def getSearchHistory (s : ServiceState) : List String :=
  if s.isIncognitoSession then s.sessionSearchHistory
  else s.prefs.searchHistory.getD []

/-- `SafetyService.clearSessionData`: always clears both session lists, and
additionally purges all history when in an incognito session or when the
persisted incognito setting is enabled. -/
def clearSessionData (s : ServiceState) : ServiceState :=
  let s1 : ServiceState :=
    { s with sessionRecentPrograms := [], sessionSearchHistory := [] }
  if s1.isIncognitoSession || isIncognitoModeEnabled s1 then clearAllHistory s1
  else s1

/-- Observable steps of `SafetyService.executeQuickExit`, in the order the
source performs them. -/
inductive ExitEvent
  | dataCleared
  | navAttempt (url : String)
  | navOpened (url : String)
  | appBackgrounded
deriving DecidableEq, Repr

/-- `SafetyService.executeQuickExit`: reads the quick-exit URL, clears
session data, then attempts to open the URL (the `canLaunch` parameter is
the injected `canLaunchUrl` behaviour) and finally backgrounds the app on
mobile platforms.  Returns the final state and the ordered event trace. -/
def executeQuickExit (canLaunch : String → Bool) (isMobilePlatform : Bool)
    (s : ServiceState) : ServiceState × List ExitEvent :=
  let url := getQuickExitUrl s
  let s1 := clearSessionData s
  let navEvents :=
    if canLaunch url then [ExitEvent.navAttempt url, ExitEvent.navOpened url]
    else [ExitEvent.navAttempt url]
  let exitEvents := if isMobilePlatform then [ExitEvent.appBackgrounded] else []
  (s1, ExitEvent.dataCleared :: navEvents ++ exitEvents)

/-- The base tips of `SafetyService.getSafetyTips`. -/
def baseSafetyTips : List SafetyTip :=
  [ { icon := "security", title := "Check your surroundings",
      description := "Make sure you're in a private, safe location before making calls." },
    { icon := "phone_android", title := "Consider using a different phone",
      description := "If your phone is monitored, use a friend's phone or a public phone." },
    { icon := "history", title := "Clear your history",
      description := "Use Incognito Mode or clear your browser/app history after visiting." } ]

/-- The category-specific tips appended by `SafetyService.getSafetyTips`. -/
def extraSafetyTips : List SafetyTip :=
  [ { icon := "dialpad", title := "Use *67 to hide your number",
      description := "Dial *67 before the number to block your caller ID." },
    { icon := "schedule", title := "Plan your call",
      description := "Choose a time when you know you'll have privacy." } ]

/-- `SafetyService.getSafetyTips`: the base three tips, with two more
appended when the (nullable) category lower-cases to `domestic-violence`
or `crisis`. -/
def getSafetyTips (category : Option String) : List SafetyTip :=
  let lower := category.map String.toLower
  if lower == some "domestic-violence" || lower == some "crisis" then
    baseSafetyTips ++ extraSafetyTips
  else baseSafetyTips

/-- `SafetyService.getNetworkPrivacyStatus` on a successfully obtained
connectivity reading: the priority chain of `contains` checks. -/
def getNetworkPrivacyStatusOf (r : List ConnectivityResult) : NetworkPrivacyStatus :=
  if r.contains ConnectivityResult.wifi then
    { level := NetworkPrivacyLevel.caution, connectionType := "WiFi",
      warning := some "You're on WiFi. Network owner may be able to see your activity.",
      suggestion := some "Consider using mobile data for sensitive lookups." }
  else if r.contains ConnectivityResult.mobile then
    { level := NetworkPrivacyLevel.moderate, connectionType := "Mobile Data",
      warning := Option.none,
      suggestion := some "Mobile data is generally more private than public WiFi." }
  else if r.contains ConnectivityResult.vpn then
    { level := NetworkPrivacyLevel.good, connectionType := "VPN",
      warning := Option.none,
      suggestion := some "VPN detected. Your traffic is encrypted." }
  else if r.contains ConnectivityResult.none then
    { level := NetworkPrivacyLevel.offline, connectionType := "Offline",
      warning := some "You're offline.",
      suggestion := some "Some features may not work without internet." }
  else
    { level := NetworkPrivacyLevel.unknown, connectionType := "Unknown",
      warning := Option.none, suggestion := Option.none }

/-- `SafetyService.getNetworkPrivacyStatus` with its surrounding try/catch:
a failing connectivity query yields the unknown status. -/
def getNetworkPrivacyStatus (conn : Except String (List ConnectivityResult)) :
    NetworkPrivacyStatus :=
  match conn with
  | Except.ok r => getNetworkPrivacyStatusOf r
  | Except.error _ =>
    { level := NetworkPrivacyLevel.unknown, connectionType := "Unknown",
      warning := Option.none, suggestion := Option.none }

/-- `SafetyService.getCurrentDisguisedIcon` applied to an already-read icon
id: `null` stays `null`; otherwise the catalog entry with that id, falling
back to the catalog's first entry. -/
def getCurrentDisguisedIconOf (iconId : Option String) : Option DisguisedAppIcon :=
  match iconId with
  | Option.none => Option.none
  | some id =>
    some ((disguisedIcons.find? (fun i => i.id == id)).getD
      (disguisedIcons.get ⟨0, by decide⟩))

/-- Preference key `bay_navigator:quick_exit_enabled`. -/
def quickExitEnabledKey : String := "bay_navigator:quick_exit_enabled"

/-- Preference key `bay_navigator:quick_exit_url`. -/
def quickExitUrlKey : String := "bay_navigator:quick_exit_url"

/-- Preference key `bay_navigator:incognito_mode`. -/
def incognitoModeKey : String := "bay_navigator:incognito_mode"

/-- Preference key `bay_navigator:show_safety_tips`. -/
def showSafetyTipsKey : String := "bay_navigator:show_safety_tips"

/-- Preference key `bay_navigator:network_warnings`. -/
def networkWarningsKey : String := "bay_navigator:network_warnings"

/-- Preference key `bay_navigator:recent_programs`. -/
def recentProgramsKey : String := "bay_navigator:recent_programs"

/-- Preference key `bay_navigator:search_history`. -/
def searchHistoryKey : String := "bay_navigator:search_history"

/-- Preference key `bay_navigator:disguised_mode`. -/
def disguisedModeKey : String := "bay_navigator:disguised_mode"

/-- Preference key `bay_navigator:disguised_icon`. -/
def disguisedIconKey : String := "bay_navigator:disguised_icon"

/-- The asynchronous preference-store interface (shared_preferences), with
each operation modelled as `Except`-valued: `Except.error` is a future that
completes with an error, `Except.ok Option.none` a read of an absent key,
and the `Bool` result of a write is the success flag the plugin reports
(ignored by all callers in the source). -/
structure ExnPrefs where
  getBool : String → Except String (Option Bool)
  setBool : String → Bool → Except String Bool
  getString : String → Except String (Option String)
  setString : String → String → Except String Bool
  getStringList : String → Except String (Option (List String))
  setStringList : String → List String → Except String Bool
  remove : String → Except String Bool

/-- `SafetyService.isQuickExitEnabled` over the `Except` store model: no
try/catch in the source, so a thrown store error propagates; an absent key
yields the default `false`. -/
def isQuickExitEnabledE (p : ExnPrefs) : Except String Bool :=
  (p.getBool quickExitEnabledKey).map (fun v => v.getD false)

/-- `SafetyService.shouldShowSafetyTips` over the `Except` store model. -/
def shouldShowSafetyTipsE (p : ExnPrefs) : Except String Bool :=
  (p.getBool showSafetyTipsKey).map (fun v => v.getD true)

/-- `SafetyService.getQuickExitUrl` over the `Except` store model. -/
def getQuickExitUrlE (p : ExnPrefs) : Except String String :=
  (p.getString quickExitUrlKey).map
    (fun v => v.getD (defaultDestinations.get ⟨0, by decide⟩).url)

/-- `SafetyService.applyDisguisedIcon` over the `Except` store model: the
two writes run inside try/catch, so a thrown store error is converted into
a `success := false` result; otherwise a platform-flavored success result is
returned. -/
def applyDisguisedIconE (p : ExnPrefs) (pl : Platform) (iconId : String) :
    DisguiseResult :=
  match p.setString disguisedIconKey iconId with
  | Except.error e =>
    { success := false, message := "Failed to change app icon: " ++ e,
      requiresRestart := false }
  | Except.ok _ =>
    match p.setBool disguisedModeKey true with
    | Except.error e =>
      { success := false, message := "Failed to change app icon: " ++ e,
        requiresRestart := false }
    | Except.ok _ =>
      match pl with
      | Platform.ios =>
        { success := true,
          message := "App icon changed. iOS will show a confirmation alert.",
          requiresRestart := false }
      | Platform.android =>
        { success := true,
          message := "App icon changed. You may need to restart the app for changes to appear on some devices.",
          requiresRestart := true }
      | Platform.other =>
        { success := true, message := "Disguised mode enabled.",
          requiresRestart := false }

/-- `SafetyService.resetToDefaultIcon` over the `Except` store model. -/
def resetToDefaultIconE (p : ExnPrefs) (pl : Platform) : DisguiseResult :=
  match p.setBool disguisedModeKey false with
  | Except.error e =>
    { success := false, message := "Failed to reset app icon: " ++ e,
      requiresRestart := false }
  | Except.ok _ =>
    match p.remove disguisedIconKey with
    | Except.error e =>
      { success := false, message := "Failed to reset app icon: " ++ e,
        requiresRestart := false }
    | Except.ok _ =>
      { success := true, message := "App icon reset to default.",
        requiresRestart := pl == Platform.android }

/-- Cached view state of `SafetyProvider`, the service's transient session
state it aliases, and a counter of `notifyListeners` calls.  Default field
values are the Dart field initializers. -/
structure ProviderState where
  initialized : Bool := false
  quickExitEnabled : Bool := false
  quickExitUrl : String := "https://www.google.com"
  incognitoModeEnabled : Bool := false
  isIncognitoSession : Bool := false
  showSafetyTips : Bool := true
  networkWarningsEnabled : Bool := true
  networkStatus : Option NetworkPrivacyStatus := Option.none
  subscribed : Bool := false
  disguisedModeEnabled : Bool := false
  currentDisguisedIcon : Option DisguisedAppIcon := Option.none
  svcIncognitoSession : Bool := false
  svcSessionRecentPrograms : List String := []
  svcSessionSearchHistory : List String := []
  notifications : Nat := 0
deriving DecidableEq, Repr

/-- One `notifyListeners()` call. -/
def notifyObservers (st : ProviderState) : ProviderState :=
  { st with notifications := st.notifications + 1 }

/-- `_initialized = true` followed by the closing `notifyListeners()` of
`SafetyProvider.initialize`. -/
def markReady (st : ProviderState) : ProviderState :=
  notifyObservers { st with initialized := true }

/-- `SafetyProvider.setQuickExitEnabled`: cache first, then the durable
write, then notify; a thrown write error leaves the cache updated but skips
the notification and propagates. -/
def providerSetQuickExitEnabled (p : ExnPrefs) (enabled : Bool)
    (st : ProviderState) : ProviderState × Except String Unit :=
  let st := { st with quickExitEnabled := enabled }
  match p.setBool quickExitEnabledKey enabled with
  | Except.error e => (st, Except.error e)
  | Except.ok _ => (notifyObservers st, Except.ok ())

/-- `SafetyProvider.setQuickExitUrl`. -/
def providerSetQuickExitUrl (p : ExnPrefs) (url : String)
    (st : ProviderState) : ProviderState × Except String Unit :=
  let st := { st with quickExitUrl := url }
  match p.setString quickExitUrlKey url with
  | Except.error e => (st, Except.error e)
  | Except.ok _ => (notifyObservers st, Except.ok ())

/-- `SafetyProvider.setShowSafetyTips`. -/
def providerSetShowSafetyTips (p : ExnPrefs) (show_ : Bool)
    (st : ProviderState) : ProviderState × Except String Unit :=
  let st := { st with showSafetyTips := show_ }
  match p.setBool showSafetyTipsKey show_ with
  | Except.error e => (st, Except.error e)
  | Except.ok _ => (notifyObservers st, Except.ok ())

/-- `SafetyProvider.setNetworkWarningsEnabled`. -/
def providerSetNetworkWarningsEnabled (p : ExnPrefs) (enabled : Bool)
    (st : ProviderState) : ProviderState × Except String Unit :=
  let st := { st with networkWarningsEnabled := enabled }
  match p.setBool networkWarningsKey enabled with
  | Except.error e => (st, Except.error e)
  | Except.ok _ => (notifyObservers st, Except.ok ())

/-- `SafetyProvider.setIncognitoModeEnabled`: both cached flags first, then
`SafetyService.setIncognitoModeEnabled` (write the flag, set the service
session flag, and when enabling run `clearAllHistory`, whose two `remove`
calls may throw), then notify. -/
def providerSetIncognitoModeEnabled (p : ExnPrefs) (enabled : Bool)
    (st : ProviderState) : ProviderState × Except String Unit :=
  let st := { st with incognitoModeEnabled := enabled, isIncognitoSession := enabled }
  match p.setBool incognitoModeKey enabled with
  | Except.error e => (st, Except.error e)
  | Except.ok _ =>
    let st := { st with svcIncognitoSession := enabled }
    if enabled then
      match p.remove recentProgramsKey with
      | Except.error e => (st, Except.error e)
      | Except.ok _ =>
        match p.remove searchHistoryKey with
        | Except.error e => (st, Except.error e)
        | Except.ok _ =>
          let st := { st with svcSessionRecentPrograms := [],
                              svcSessionSearchHistory := [] }
          (notifyObservers st, Except.ok ())
    else (notifyObservers st, Except.ok ())

/-- `SafetyProvider.startIncognitoSession`: delegates to the service (flag
on, session lists cleared), caches the flag, notifies.  No store access. -/
def providerStartIncognitoSession (st : ProviderState) : ProviderState :=
  notifyObservers
    { st with svcIncognitoSession := true,
              svcSessionRecentPrograms := [],
              svcSessionSearchHistory := [],
              isIncognitoSession := true }

/-- `SafetyProvider.endIncognitoSession`. -/
def providerEndIncognitoSession (st : ProviderState) : ProviderState :=
  notifyObservers
    { st with svcIncognitoSession := false,
              svcSessionRecentPrograms := [],
              svcSessionSearchHistory := [],
              isIncognitoSession := false }

/-- `SafetyProvider.clearAllHistory`: delegates to the service (two removes
that may throw, then session lists cleared), then notifies. -/
def providerClearAllHistory (p : ExnPrefs) (st : ProviderState) :
    ProviderState × Except String Unit :=
  match p.remove recentProgramsKey with
  | Except.error e => (st, Except.error e)
  | Except.ok _ =>
    match p.remove searchHistoryKey with
    | Except.error e => (st, Except.error e)
    | Except.ok _ =>
      let st := { st with svcSessionRecentPrograms := [],
                          svcSessionSearchHistory := [] }
      (notifyObservers st, Except.ok ())

/-- `SafetyProvider.refreshNetworkStatus`: recomputes the status (which
never throws) and notifies. -/
def providerRefreshNetworkStatus (conn : Except String (List ConnectivityResult))
    (st : ProviderState) : ProviderState :=
  notifyObservers { st with networkStatus := some (getNetworkPrivacyStatus conn) }

/-- `SafetyProvider.applyDisguisedIcon`: runs the engine call first; caches
the disguise state and notifies only when the result reports success. -/
def providerApplyDisguisedIcon (p : ExnPrefs) (pl : Platform)
    (icon : DisguisedAppIcon) (st : ProviderState) :
    DisguiseResult × ProviderState :=
  let result := applyDisguisedIconE p pl icon.id
  if result.success then
    (result, notifyObservers
      { st with disguisedModeEnabled := true, currentDisguisedIcon := some icon })
  else (result, st)

/-- `SafetyProvider.resetToDefaultIcon`: same conditional shape as
`providerApplyDisguisedIcon`. -/
def providerResetToDefaultIcon (p : ExnPrefs) (pl : Platform)
    (st : ProviderState) : DisguiseResult × ProviderState :=
  let result := resetToDefaultIconE p pl
  if result.success then
    (result, notifyObservers
      { st with disguisedModeEnabled := false, currentDisguisedIcon := Option.none })
  else (result, st)

/-- `SafetyProvider.initialize` (named `providerInit` here): a no-op when
already initialized; otherwise the load sequence runs inside try/catch with
each read threaded in source order (a thrown read stops the sequence,
keeping the assignments already made), and in every case the method ends by
setting `_initialized` and notifying once. -/
def providerInit (p : ExnPrefs) (conn : Except String (List ConnectivityResult))
    (st : ProviderState) : ProviderState :=
  if st.initialized then st
  else
    match p.getBool quickExitEnabledKey with
    | Except.error _ => markReady st
    | Except.ok v1 =>
      let st := { st with quickExitEnabled := v1.getD false }
      match p.getString quickExitUrlKey with
      | Except.error _ => markReady st
      | Except.ok v2 =>
        let st := { st with quickExitUrl := v2.getD "https://www.google.com" }
        match p.getBool incognitoModeKey with
        | Except.error _ => markReady st
        | Except.ok v3 =>
          let st := { st with incognitoModeEnabled := v3.getD false,
                              isIncognitoSession := st.svcIncognitoSession }
          match p.getBool showSafetyTipsKey with
          | Except.error _ => markReady st
          | Except.ok v4 =>
            let st := { st with showSafetyTips := v4.getD true }
            match p.getBool networkWarningsKey with
            | Except.error _ => markReady st
            | Except.ok v5 =>
              let st := { st with networkWarningsEnabled := v5.getD true }
              let st := { st with networkStatus := some (getNetworkPrivacyStatus conn) }
              match p.getBool disguisedModeKey with
              | Except.error _ => markReady st
              | Except.ok v6 =>
                let st := { st with disguisedModeEnabled := v6.getD false }
                match p.getString disguisedIconKey with
                | Except.error _ => markReady st
                | Except.ok v7 =>
                  let st := { st with currentDisguisedIcon := getCurrentDisguisedIconOf v7 }
                  let st := { st with subscribed := true }
                  let st :=
                    if v3.getD false then
                      { st with svcIncognitoSession := true,
                                svcSessionRecentPrograms := [],
                                svcSessionSearchHistory := [],
                                isIncognitoSession := true }
                    else st
                  markReady st

/-- A store whose every operation completes with an error (a fully
unavailable shared_preferences backend). -/
def failingStore : ExnPrefs :=
  { getBool := fun _ => Except.error "storage unavailable"
    setBool := fun _ _ => Except.error "storage unavailable"
    getString := fun _ => Except.error "storage unavailable"
    setString := fun _ _ => Except.error "storage unavailable"
    getStringList := fun _ => Except.error "storage unavailable"
    setStringList := fun _ _ => Except.error "storage unavailable"
    remove := fun _ => Except.error "storage unavailable" }

/-- A store with no stored values: every read reports an absent key and
every write succeeds. -/
def emptyStore : ExnPrefs :=
  { getBool := fun _ => Except.ok Option.none
    setBool := fun _ _ => Except.ok true
    getString := fun _ => Except.ok Option.none
    setString := fun _ _ => Except.ok true
    getStringList := fun _ => Except.ok Option.none
    setStringList := fun _ _ => Except.ok true
    remove := fun _ => Except.ok true }

/-- An action against the history API, for reasoning about call sequences. -/
inductive HistAction
  | recent (id : String)
  | search (q : String)
deriving DecidableEq, Repr

/-- Apply one history action to the service. -/
def applyHistAction (s : ServiceState) (a : HistAction) : ServiceState :=
  match a with
  | HistAction.recent id => addRecentProgram id s
  | HistAction.search q => addSearchQuery q s

/-- Apply a sequence of history actions, oldest first. -/
def applyHistActions (s : ServiceState) (as : List HistAction) : ServiceState :=
  as.foldl applyHistAction s

/-- The capped front-insert shared by all four history-list updates in the
source: insert at the front, then drop the last element when the cap is
exceeded. -/
def cappedInsert (cap : Nat) (x : String) (l : List String) : List String :=
  if (x :: l).length > cap then (x :: l).dropLast else x :: l

/-- A demonstration state with non-empty session lists and non-empty
persisted history, outside an incognito session. -/
def quickExitDemoState : ServiceState :=
  { prefs := { recentPrograms := some ["p1"], searchHistory := some ["q1"] }
    isIncognitoSession := false
    sessionRecentPrograms := ["sp"]
    sessionSearchHistory := ["sq"] }

/-- C1: `executeQuickExit` clears both in-memory session lists strictly
before the navigation attempt begins, for every opener behaviour; after it
returns both session lists are empty, and the persisted history lists are
purged exactly when, at call time, an incognito session is active or the
persisted incognito setting is enabled. -/
theorem executeQuickExit_clears_before_navigation :
    ∀ (canLaunch : String → Bool) (mobile : Bool) (s : ServiceState),
      (executeQuickExit canLaunch mobile s).2.head? = some ExitEvent.dataCleared ∧
      (executeQuickExit canLaunch mobile s).2[1]? =
        some (ExitEvent.navAttempt (getQuickExitUrl s)) ∧
      (executeQuickExit canLaunch mobile s).1.sessionRecentPrograms = [] ∧
      (executeQuickExit canLaunch mobile s).1.sessionSearchHistory = [] ∧
      ((s.isIncognitoSession || isIncognitoModeEnabled s) = true →
        (executeQuickExit canLaunch mobile s).1.prefs.recentPrograms = Option.none ∧
        (executeQuickExit canLaunch mobile s).1.prefs.searchHistory = Option.none) ∧
      ((s.isIncognitoSession || isIncognitoModeEnabled s) = false →
        (executeQuickExit canLaunch mobile s).1.prefs.recentPrograms =
          s.prefs.recentPrograms ∧
        (executeQuickExit canLaunch mobile s).1.prefs.searchHistory =
          s.prefs.searchHistory) := by
  intro canLaunch mobile s
  simp only [executeQuickExit, clearSessionData, clearAllHistory,
    isIncognitoModeEnabled]
  cases hcl : canLaunch (getQuickExitUrl s) <;>
    cases hh : s.isIncognitoSession <;>
      cases hmi : s.prefs.incognitoMode.getD false <;>
        simp_all

/-- Witness for C1 at a failing opener and a state with non-empty lists. -/
theorem executeQuickExit_clears_before_navigation_witness :
    (executeQuickExit (fun _ => false) true quickExitDemoState).1.sessionRecentPrograms = [] ∧
    (executeQuickExit (fun _ => false) true quickExitDemoState).1.sessionSearchHistory = [] ∧
    (executeQuickExit (fun _ => false) true quickExitDemoState).1.prefs.recentPrograms =
      some ["p1"] := by
  have h := executeQuickExit_clears_before_navigation (fun _ => false) true quickExitDemoState
  exact ⟨h.2.2.1, h.2.2.2.1, (h.2.2.2.2.2 (by decide)).1⟩

/-- C4: `setIncognitoModeEnabled true` leaves both persisted history lists
empty, and for both argument values the transient session flag mirrors the
argument afterwards. -/
theorem setIncognitoModeEnabled_purges_and_mirrors :
    (∀ s : ServiceState,
       (setIncognitoModeEnabled true s).prefs.recentPrograms = Option.none ∧
       (setIncognitoModeEnabled true s).prefs.searchHistory = Option.none ∧
       (setIncognitoModeEnabled true s).sessionRecentPrograms = [] ∧
       (setIncognitoModeEnabled true s).sessionSearchHistory = []) ∧
    (∀ (s : ServiceState) (b : Bool),
       (setIncognitoModeEnabled b s).isIncognitoSession = b ∧
       (setIncognitoModeEnabled b s).prefs.incognitoMode = some b) := by
  constructor
  · intro s
    simp [setIncognitoModeEnabled, clearAllHistory]
  · intro s b
    cases b <;> simp [setIncognitoModeEnabled, clearAllHistory]

/-- C5 counterexample: `setQuickExitUrl` persists verbatim, so setting the
empty string makes `getQuickExitUrl` return the empty string — the result
is not guaranteed non-empty in every reachable state. -/
theorem getQuickExitUrl_empty_counterexample :
    getQuickExitUrl (setQuickExitUrl "" ServiceState.initial) = "" := rfl

/-- C5 (amended): `getQuickExitUrl` returns the first catalog destination's
URL when the key was never set and otherwise exactly the last string passed
to `setQuickExitUrl`; the result is non-empty whenever that string was
non-empty (or nothing was ever set), but an empty set string is returned
verbatim. -/
theorem getQuickExitUrl_spec :
    (∀ s : ServiceState, s.prefs.quickExitUrl = Option.none →
       getQuickExitUrl s = "https://www.google.com") ∧
    (∀ (s : ServiceState) (u : String), getQuickExitUrl (setQuickExitUrl u s) = u) ∧
    (∀ (s : ServiceState) (u : String), u ≠ "" →
       getQuickExitUrl (setQuickExitUrl u s) ≠ "") := by
  refine ⟨?_, ?_, ?_⟩
  · intro s h
    rw [getQuickExitUrl, h]
    rfl
  · intro s u
    rfl
  · intro s u h
    simpa [getQuickExitUrl, setQuickExitUrl] using h

/-- Witness for C5 (amended) at the fresh state and a concrete URL. -/
theorem getQuickExitUrl_spec_witness :
    getQuickExitUrl ServiceState.initial = "https://www.google.com" ∧
    getQuickExitUrl (setQuickExitUrl "https://example.org" ServiceState.initial) ≠ "" := by
  have h := getQuickExitUrl_spec
  exact ⟨h.1 ServiceState.initial rfl,
         h.2.2 ServiceState.initial "https://example.org" (by decide)⟩

/-- C9: the network classification is first-match-wins in the order wifi,
mobile, vpn, none; wifi gives caution/"WiFi" with a warning, mobile gives
moderate/"Mobile Data" without, vpn gives good/"VPN" without, none gives
offline/"Offline" with a warning, anything else (including the empty
reading) and a failed connectivity query give unknown/"Unknown" without. -/
theorem getNetworkPrivacyStatus_classification :
    (∀ r : List ConnectivityResult,
      (r.contains ConnectivityResult.wifi = true →
        (getNetworkPrivacyStatusOf r).level = NetworkPrivacyLevel.caution ∧
        (getNetworkPrivacyStatusOf r).connectionType = "WiFi" ∧
        (getNetworkPrivacyStatusOf r).warning.isSome = true) ∧
      (r.contains ConnectivityResult.wifi = false →
       r.contains ConnectivityResult.mobile = true →
        (getNetworkPrivacyStatusOf r).level = NetworkPrivacyLevel.moderate ∧
        (getNetworkPrivacyStatusOf r).connectionType = "Mobile Data" ∧
        (getNetworkPrivacyStatusOf r).warning = Option.none) ∧
      (r.contains ConnectivityResult.wifi = false →
       r.contains ConnectivityResult.mobile = false →
       r.contains ConnectivityResult.vpn = true →
        (getNetworkPrivacyStatusOf r).level = NetworkPrivacyLevel.good ∧
        (getNetworkPrivacyStatusOf r).connectionType = "VPN" ∧
        (getNetworkPrivacyStatusOf r).warning = Option.none) ∧
      (r.contains ConnectivityResult.wifi = false →
       r.contains ConnectivityResult.mobile = false →
       r.contains ConnectivityResult.vpn = false →
       r.contains ConnectivityResult.none = true →
        (getNetworkPrivacyStatusOf r).level = NetworkPrivacyLevel.offline ∧
        (getNetworkPrivacyStatusOf r).connectionType = "Offline" ∧
        (getNetworkPrivacyStatusOf r).warning.isSome = true) ∧
      (r.contains ConnectivityResult.wifi = false →
       r.contains ConnectivityResult.mobile = false →
       r.contains ConnectivityResult.vpn = false →
       r.contains ConnectivityResult.none = false →
        getNetworkPrivacyStatusOf r =
          { level := NetworkPrivacyLevel.unknown, connectionType := "Unknown",
            warning := Option.none, suggestion := Option.none })) ∧
    (∀ e : String,
      getNetworkPrivacyStatus (Except.error e) =
        { level := NetworkPrivacyLevel.unknown, connectionType := "Unknown",
          warning := Option.none, suggestion := Option.none }) ∧
    (∀ r : List ConnectivityResult,
      getNetworkPrivacyStatus (Except.ok r) = getNetworkPrivacyStatusOf r) := by
  refine ⟨fun r => ⟨?_, ?_, ?_, ?_, ?_⟩, fun e => rfl, fun r => rfl⟩ <;>
    intros <;> simp_all [getNetworkPrivacyStatusOf]

/-- Witness for C9 at the readings `[wifi]`, `[vpn]` and `[]`. -/
theorem getNetworkPrivacyStatus_classification_witness :
    (getNetworkPrivacyStatusOf [ConnectivityResult.wifi]).level =
      NetworkPrivacyLevel.caution ∧
    (getNetworkPrivacyStatusOf [ConnectivityResult.vpn]).level =
      NetworkPrivacyLevel.good ∧
    getNetworkPrivacyStatusOf [] =
      { level := NetworkPrivacyLevel.unknown, connectionType := "Unknown",
        warning := Option.none, suggestion := Option.none } := by
  have h := getNetworkPrivacyStatus_classification
  exact ⟨((h.1 [ConnectivityResult.wifi]).1 (by decide)).1,
         ((h.1 [ConnectivityResult.vpn]).2.2.1 (by decide) (by decide) (by decide)).1,
         (h.1 []).2.2.2.2 (by decide) (by decide) (by decide) (by decide)⟩

/-- C10: `getSafetyTips` is total on its nullable argument: `null` yields
exactly the three base tips in their fixed order, like any category whose
lower-casing is neither "domestic-violence" nor "crisis"; only those two
get the two extra tips appended. -/
theorem getSafetyTips_nullable_total :
    getSafetyTips Option.none = baseSafetyTips ∧
    baseSafetyTips.length = 3 ∧
    (∀ c : String,
      getSafetyTips (some c) =
        if c.toLower == "domestic-violence" || c.toLower == "crisis" then
          baseSafetyTips ++ extraSafetyTips
        else baseSafetyTips) := by
  refine ⟨rfl, rfl, fun c => rfl⟩


/-- The capped front-insert preserves `Nodup` and the cap when the inserted
value is absent and the input is within the cap. -/
lemma cappedInsert_nodup_length (cap : Nat) {x : String} {l : List String}
    (hn : l.Nodup) (hx : x ∉ l) (hl : l.length ≤ cap) :
    (cappedInsert cap x l).Nodup ∧ (cappedInsert cap x l).length ≤ cap := by
  have hcons : (x :: l).Nodup := List.nodup_cons.mpr ⟨hx, hn⟩
  have hlen : (x :: l).length = l.length + 1 := rfl
  unfold cappedInsert
  by_cases h : (x :: l).length > cap
  · simp only [if_pos h]
    exact ⟨hcons.sublist (List.dropLast_sublist _),
           by rw [List.length_dropLast, hlen]; omega⟩
  · simp only [if_neg h]
    exact ⟨hcons, by omega⟩

/-- Every element of the capped front-insert is the inserted value or an
element of the original list. -/
lemma cappedInsert_mem {x y : String} {l : List String} {cap : Nat}
    (hy : y ∈ cappedInsert cap x l) : y = x ∨ y ∈ l := by
  have hmem : y ∈ x :: l := by
    unfold cappedInsert at hy
    by_cases h : (x :: l).length > cap
    · rw [if_pos h] at hy
      exact (List.dropLast_sublist _).subset hy
    · rwa [if_neg h] at hy
  simpa using hmem

/-- In a duplicate-free list, erasing a value removes it entirely. -/
lemma eraseSelf_not_mem {x : String} {l : List String} (hn : l.Nodup) :
    x ∉ l.erase x := by
  intro hm
  exact (hn.mem_erase_iff.mp hm).1 rfl

/-- Outside an incognito session, `addRecentProgram` rewrites the persisted
list to the capped front-insert after erasing the value. -/
lemma addRecentProgram_not_incognito (x : String) (s : ServiceState)
    (h : s.isIncognitoSession = false) :
    addRecentProgram x s =
      { s with prefs := { s.prefs with
          recentPrograms := some (cappedInsert 20 x ((s.prefs.recentPrograms.getD []).erase x)) } } := by
  rw [addRecentProgram, if_neg (by simp [h]), cappedInsert]

/-- Outside an incognito session, `addSearchQuery` rewrites the persisted
list to the capped front-insert after erasing the value. -/
lemma addSearchQuery_not_incognito (q : String) (s : ServiceState)
    (h : s.isIncognitoSession = false) :
    addSearchQuery q s =
      { s with prefs := { s.prefs with
          searchHistory := some (cappedInsert 20 q ((s.prefs.searchHistory.getD []).erase q)) } } := by
  rw [addSearchQuery, if_neg (by simp [h]), cappedInsert]

/-- During an incognito session, adding an absent program id front-inserts
into the session list with the cap of 10. -/
lemma addRecentProgram_incognito_new (x : String) (s : ServiceState)
    (h : s.isIncognitoSession = true) (hc : s.sessionRecentPrograms.contains x = false) :
    addRecentProgram x s =
      { s with sessionRecentPrograms := cappedInsert 10 x s.sessionRecentPrograms } := by
  rw [addRecentProgram, if_pos h, if_neg (by simpa using hc), cappedInsert]

/-- During an incognito session, re-adding a present program id is a no-op. -/
lemma addRecentProgram_incognito_dup (x : String) (s : ServiceState)
    (h : s.isIncognitoSession = true) (hc : s.sessionRecentPrograms.contains x = true) :
    addRecentProgram x s = s := by
  rw [addRecentProgram, if_pos h, if_pos hc]

/-- During an incognito session, adding an absent query front-inserts into
the session list with the cap of 10. -/
lemma addSearchQuery_incognito_new (q : String) (s : ServiceState)
    (h : s.isIncognitoSession = true) (hc : s.sessionSearchHistory.contains q = false) :
    addSearchQuery q s =
      { s with sessionSearchHistory := cappedInsert 10 q s.sessionSearchHistory } := by
  rw [addSearchQuery, if_pos h, if_neg (by simpa using hc), cappedInsert]

/-- During an incognito session, re-adding a present query is a no-op. -/
lemma addSearchQuery_incognito_dup (q : String) (s : ServiceState)
    (h : s.isIncognitoSession = true) (hc : s.sessionSearchHistory.contains q = true) :
    addSearchQuery q s = s := by
  rw [addSearchQuery, if_pos h, if_pos hc]

/-- Invariant of history sequences outside incognito: the session flag stays
off and both persisted lists stay duplicate-free and within the cap 20. -/
lemma histActions_persist_inv (as : List HistAction) :
    ∀ s : ServiceState, s.isIncognitoSession = false →
      (s.prefs.recentPrograms.getD []).Nodup →
      (s.prefs.recentPrograms.getD []).length ≤ 20 →
      (s.prefs.searchHistory.getD []).Nodup →
      (s.prefs.searchHistory.getD []).length ≤ 20 →
      ((applyHistActions s as).isIncognitoSession = false ∧
       ((applyHistActions s as).prefs.recentPrograms.getD []).Nodup ∧
       ((applyHistActions s as).prefs.recentPrograms.getD []).length ≤ 20 ∧
       ((applyHistActions s as).prefs.searchHistory.getD []).Nodup ∧
       ((applyHistActions s as).prefs.searchHistory.getD []).length ≤ 20) := by
  induction as with
  | nil =>
    intro s h1 h2 h3 h4 h5
    exact ⟨h1, h2, h3, h4, h5⟩
  | cons a as ih =>
    intro s h1 h2 h3 h4 h5
    have hfold : applyHistActions s (a :: as) =
        applyHistActions (applyHistAction s a) as := rfl
    rw [hfold]
    cases a with
    | recent x =>
      have hs : applyHistAction s (HistAction.recent x) =
          { s with prefs := { s.prefs with
              recentPrograms := some (cappedInsert 20 x ((s.prefs.recentPrograms.getD []).erase x)) } } :=
        addRecentProgram_not_incognito x s h1
      rw [hs]
      have hstep := cappedInsert_nodup_length 20
        (h2.erase x) (eraseSelf_not_mem h2)
        (le_trans (List.erase_sublist x _).length_le h3)
      apply ih
      · exact h1
      · exact hstep.1
      · exact hstep.2
      · exact h4
      · exact h5
    | search q =>
      have hs : applyHistAction s (HistAction.search q) =
          { s with prefs := { s.prefs with
              searchHistory := some (cappedInsert 20 q ((s.prefs.searchHistory.getD []).erase q)) } } :=
        addSearchQuery_not_incognito q s h1
      rw [hs]
      have hstep := cappedInsert_nodup_length 20
        (h4.erase q) (eraseSelf_not_mem h4)
        (le_trans (List.erase_sublist q _).length_le h5)
      apply ih
      · exact h1
      · exact h2
      · exact h3
      · exact hstep.1
      · exact hstep.2

/-- Invariant of history sequences during an incognito session: the flag
stays on, the preference store is untouched, both session lists stay
duplicate-free within the cap 10, and every session entry either predates
the sequence or was added by it. -/
lemma histActions_incognito_inv (as : List HistAction) :
    ∀ s : ServiceState, s.isIncognitoSession = true →
      s.sessionRecentPrograms.Nodup → s.sessionRecentPrograms.length ≤ 10 →
      s.sessionSearchHistory.Nodup → s.sessionSearchHistory.length ≤ 10 →
      ((applyHistActions s as).isIncognitoSession = true ∧
       (applyHistActions s as).prefs = s.prefs ∧
       (applyHistActions s as).sessionRecentPrograms.Nodup ∧
       (applyHistActions s as).sessionRecentPrograms.length ≤ 10 ∧
       (applyHistActions s as).sessionSearchHistory.Nodup ∧
       (applyHistActions s as).sessionSearchHistory.length ≤ 10 ∧
       (∀ y ∈ (applyHistActions s as).sessionRecentPrograms,
          y ∈ s.sessionRecentPrograms ∨ HistAction.recent y ∈ as) ∧
       (∀ q ∈ (applyHistActions s as).sessionSearchHistory,
          q ∈ s.sessionSearchHistory ∨ HistAction.search q ∈ as)) := by
  induction as with
  | nil =>
    intro s h1 h2 h3 h4 h5
    exact ⟨h1, rfl, h2, h3, h4, h5,
           fun y hy => Or.inl hy, fun q hq => Or.inl hq⟩
  | cons a as ih =>
    intro s h1 h2 h3 h4 h5
    have hfold : applyHistActions s (a :: as) =
        applyHistActions (applyHistAction s a) as := rfl
    rw [hfold]
    cases a with
    | recent x =>
      by_cases hc : s.sessionRecentPrograms.contains x = true
      · have hs : applyHistAction s (HistAction.recent x) = s :=
          addRecentProgram_incognito_dup x s h1 hc
        rw [hs]
        obtain ⟨i1, i2, i3, i4, i5, i6, i7, i8⟩ := ih s h1 h2 h3 h4 h5
        exact ⟨i1, i2, i3, i4, i5, i6,
               fun y hy => (i7 y hy).imp id (List.mem_cons_of_mem _),
               fun q hq => (i8 q hq).imp id (List.mem_cons_of_mem _)⟩
      · have hc' : s.sessionRecentPrograms.contains x = false := by
          cases h : s.sessionRecentPrograms.contains x
          · rfl
          · exact absurd h hc
        have hx : x ∉ s.sessionRecentPrograms := by simpa using hc'
        have hs : applyHistAction s (HistAction.recent x) =
            { s with sessionRecentPrograms := cappedInsert 10 x s.sessionRecentPrograms } :=
          addRecentProgram_incognito_new x s h1 hc'
        rw [hs]
        have hnl := cappedInsert_nodup_length 10 h2 hx h3
        obtain ⟨i1, i2, i3, i4, i5, i6, i7, i8⟩ :=
          ih { s with sessionRecentPrograms := cappedInsert 10 x s.sessionRecentPrograms }
            h1 hnl.1 hnl.2 h4 h5
        refine ⟨i1, i2, i3, i4, i5, i6, ?_, ?_⟩
        · intro y hy
          rcases i7 y hy with hmem | has
          · have hmem' : y ∈ cappedInsert 10 x s.sessionRecentPrograms := hmem
            rcases cappedInsert_mem hmem' with heq | hold
            · exact Or.inr (by simp [heq])
            · exact Or.inl hold
          · exact Or.inr (List.mem_cons_of_mem _ has)
        · intro q hq
          rcases i8 q hq with hmem | has
          · exact Or.inl hmem
          · exact Or.inr (List.mem_cons_of_mem _ has)
    | search qv =>
      by_cases hc : s.sessionSearchHistory.contains qv = true
      · have hs : applyHistAction s (HistAction.search qv) = s :=
          addSearchQuery_incognito_dup qv s h1 hc
        rw [hs]
        obtain ⟨i1, i2, i3, i4, i5, i6, i7, i8⟩ := ih s h1 h2 h3 h4 h5
        exact ⟨i1, i2, i3, i4, i5, i6,
               fun y hy => (i7 y hy).imp id (List.mem_cons_of_mem _),
               fun q hq => (i8 q hq).imp id (List.mem_cons_of_mem _)⟩
      · have hc' : s.sessionSearchHistory.contains qv = false := by
          cases h : s.sessionSearchHistory.contains qv
          · rfl
          · exact absurd h hc
        have hx : qv ∉ s.sessionSearchHistory := by simpa using hc'
        have hs : applyHistAction s (HistAction.search qv) =
            { s with sessionSearchHistory := cappedInsert 10 qv s.sessionSearchHistory } :=
          addSearchQuery_incognito_new qv s h1 hc'
        rw [hs]
        have hnl := cappedInsert_nodup_length 10 h4 hx h5
        obtain ⟨i1, i2, i3, i4, i5, i6, i7, i8⟩ :=
          ih { s with sessionSearchHistory := cappedInsert 10 qv s.sessionSearchHistory }
            h1 h2 h3 hnl.1 hnl.2
        refine ⟨i1, i2, i3, i4, i5, i6, ?_, ?_⟩
        · intro y hy
          rcases i7 y hy with hmem | has
          · exact Or.inl hmem
          · exact Or.inr (List.mem_cons_of_mem _ has)
        · intro q hq
          rcases i8 q hq with hmem | has
          · have hmem' : q ∈ cappedInsert 10 qv s.sessionSearchHistory := hmem
            rcases cappedInsert_mem hmem' with heq | hold
            · exact Or.inr (by simp [heq])
            · exact Or.inl hold
          · exact Or.inr (List.mem_cons_of_mem _ has)

/-- C2 counterexample: during an incognito session, re-adding a value that
is already in the session list is a no-op, not a move to the front — after
adding "a", "b", "a" the session list is `["b", "a"]`, so the most recently
added value is not at the front. -/
theorem history_moveToFront_counterexample :
    (addRecentProgram "a" (addRecentProgram "b" (addRecentProgram "a"
        (startIncognitoSession ServiceState.initial)))).sessionRecentPrograms = ["b", "a"] ∧
    (addRecentProgram "a" (addRecentProgram "b" (addRecentProgram "a"
        (startIncognitoSession ServiceState.initial)))).sessionRecentPrograms.head? ≠
      some "a" := by
  exact ⟨by decide, by decide⟩

/-- C2 (amended): every history list stays duplicate-free and within its cap
(10 session, 20 persisted); outside incognito an add moves the value to the
front of the persisted list (erase + capped front-insert); during incognito
an absent value is front-inserted into the session list but a value already
present is left in place — the call is a no-op, so the session list is
ordered by first insertion rather than most recent use. -/
theorem history_dedupe_cap_front :
    (∀ as : List HistAction,
       (applyHistActions (startIncognitoSession ServiceState.initial) as).sessionRecentPrograms.Nodup ∧
       (applyHistActions (startIncognitoSession ServiceState.initial) as).sessionRecentPrograms.length ≤ 10 ∧
       (applyHistActions (startIncognitoSession ServiceState.initial) as).sessionSearchHistory.Nodup ∧
       (applyHistActions (startIncognitoSession ServiceState.initial) as).sessionSearchHistory.length ≤ 10) ∧
    (∀ as : List HistAction,
       (getRecentPrograms (applyHistActions ServiceState.initial as)).Nodup ∧
       (getRecentPrograms (applyHistActions ServiceState.initial as)).length ≤ 20 ∧
       (getSearchHistory (applyHistActions ServiceState.initial as)).Nodup ∧
       (getSearchHistory (applyHistActions ServiceState.initial as)).length ≤ 20) ∧
    (∀ (s : ServiceState) (x : String), s.isIncognitoSession = false →
       getRecentPrograms (addRecentProgram x s) =
         cappedInsert 20 x ((getRecentPrograms s).erase x)) ∧
    (∀ (s : ServiceState) (q : String), s.isIncognitoSession = false →
       getSearchHistory (addSearchQuery q s) =
         cappedInsert 20 q ((getSearchHistory s).erase q)) ∧
    (∀ (s : ServiceState) (x : String), s.isIncognitoSession = true →
       s.sessionRecentPrograms.contains x = false →
       (addRecentProgram x s).sessionRecentPrograms =
         cappedInsert 10 x s.sessionRecentPrograms) ∧
    (∀ (s : ServiceState) (x : String), s.isIncognitoSession = true →
       s.sessionRecentPrograms.contains x = true → addRecentProgram x s = s) ∧
    (∀ (s : ServiceState) (q : String), s.isIncognitoSession = true →
       s.sessionSearchHistory.contains q = false →
       (addSearchQuery q s).sessionSearchHistory =
         cappedInsert 10 q s.sessionSearchHistory) ∧
    (∀ (s : ServiceState) (q : String), s.isIncognitoSession = true →
       s.sessionSearchHistory.contains q = true → addSearchQuery q s = s) := by
  refine ⟨?_, ?_, ?_, ?_, ?_, ?_, ?_, ?_⟩
  · intro as
    have h := histActions_incognito_inv as (startIncognitoSession ServiceState.initial)
      rfl List.nodup_nil (by decide) List.nodup_nil (by decide)
    exact ⟨h.2.2.1, h.2.2.2.1, h.2.2.2.2.1, h.2.2.2.2.2.1⟩
  · intro as
    have h := histActions_persist_inv as ServiceState.initial
      rfl List.nodup_nil (by decide) List.nodup_nil (by decide)
    refine ⟨?_, ?_, ?_, ?_⟩
    · simpa [getRecentPrograms, h.1] using h.2.1
    · simpa [getRecentPrograms, h.1] using h.2.2.1
    · simpa [getSearchHistory, h.1] using h.2.2.2.1
    · simpa [getSearchHistory, h.1] using h.2.2.2.2
  · intro s x h
    rw [addRecentProgram_not_incognito x s h]
    simp [getRecentPrograms, h]
  · intro s q h
    rw [addSearchQuery_not_incognito q s h]
    simp [getSearchHistory, h]
  · intro s x h hc
    rw [addRecentProgram_incognito_new x s h hc]
  · intro s x h hc
    exact addRecentProgram_incognito_dup x s h hc
  · intro s q h hc
    rw [addSearchQuery_incognito_new q s h hc]
  · intro s q h hc
    exact addSearchQuery_incognito_dup q s h hc

/-- Witness for C2 (amended) on concrete two-element histories. -/
theorem history_dedupe_cap_front_witness :
    (applyHistActions (startIncognitoSession ServiceState.initial)
        [HistAction.recent "a", HistAction.recent "b"]).sessionRecentPrograms.Nodup ∧
    getRecentPrograms (addRecentProgram "a" ServiceState.initial) =
      cappedInsert 20 "a" ((getRecentPrograms ServiceState.initial).erase "a") ∧
    addRecentProgram "a" (addRecentProgram "a" (startIncognitoSession ServiceState.initial)) =
      addRecentProgram "a" (startIncognitoSession ServiceState.initial) := by
  have h := history_dedupe_cap_front
  exact ⟨(h.1 [HistAction.recent "a", HistAction.recent "b"]).1,
         h.2.2.1 ServiceState.initial "a" rfl,
         h.2.2.2.2.2.1 (addRecentProgram "a" (startIncognitoSession ServiceState.initial))
           "a" (by decide) (by decide)⟩

/-- C3: during an incognito session every history add leaves the persisted
lists in the store untouched, and the history getters return only values
added during the session. -/
theorem incognito_isolation :
    ∀ (as : List HistAction) (s : ServiceState),
      (applyHistActions (startIncognitoSession s) as).prefs.recentPrograms =
        s.prefs.recentPrograms ∧
      (applyHistActions (startIncognitoSession s) as).prefs.searchHistory =
        s.prefs.searchHistory ∧
      (∀ y ∈ getRecentPrograms (applyHistActions (startIncognitoSession s) as),
         HistAction.recent y ∈ as) ∧
      (∀ q ∈ getSearchHistory (applyHistActions (startIncognitoSession s) as),
         HistAction.search q ∈ as) := by
  intro as s
  obtain ⟨i1, i2, i3, i4, i5, i6, i7, i8⟩ :=
    histActions_incognito_inv as (startIncognitoSession s)
      rfl List.nodup_nil (Nat.zero_le 10) List.nodup_nil (Nat.zero_le 10)
  refine ⟨?_, ?_, ?_, ?_⟩
  · rw [i2]
    rfl
  · rw [i2]
    rfl
  · intro y hy
    have hy' : y ∈ (applyHistActions (startIncognitoSession s) as).sessionRecentPrograms := by
      simpa [getRecentPrograms, i1] using hy
    rcases i7 y hy' with hmem | has
    · exact absurd hmem (by simp [startIncognitoSession])
    · exact has
  · intro q hq
    have hq' : q ∈ (applyHistActions (startIncognitoSession s) as).sessionSearchHistory := by
      simpa [getSearchHistory, i1] using hq
    rcases i8 q hq' with hmem | has
    · exact absurd hmem (by simp [startIncognitoSession])
    · exact has

/-- Witness for C3 on a one-action session over the fresh state. -/
theorem incognito_isolation_witness :
    (applyHistActions (startIncognitoSession ServiceState.initial)
        [HistAction.recent "a"]).prefs.recentPrograms = Option.none ∧
    HistAction.recent "a" ∈ [HistAction.recent "a"] := by
  have h := incognito_isolation [HistAction.recent "a"] ServiceState.initial
  exact ⟨h.1, h.2.2.1 "a" (by decide)⟩

/-- C6 counterexample: `isQuickExitEnabled` has no try/catch, so a store
read that completes with an error propagates the failure to the caller
instead of returning the documented default `false`. -/
theorem storeError_propagates_counterexample :
    isQuickExitEnabledE failingStore = Except.error "storage unavailable" ∧
    isQuickExitEnabledE failingStore ≠ Except.ok false := by
  refine ⟨rfl, ?_⟩
  intro h
  simp [isQuickExitEnabledE, failingStore, Except.map] at h

/-- C6 (amended): a read that reports the key absent falls back to the
documented default, and a reported write failure is ignored; but a store
operation that throws propagates out of the plain getters and setters — only
`applyDisguisedIcon`, `resetToDefaultIcon` and `getNetworkPrivacyStatus`
catch and convert failures into result values. -/
theorem storeFailure_behaviour :
    (∀ p : ExnPrefs, p.getBool quickExitEnabledKey = Except.ok Option.none →
       isQuickExitEnabledE p = Except.ok false) ∧
    (∀ p : ExnPrefs, p.getBool showSafetyTipsKey = Except.ok Option.none →
       shouldShowSafetyTipsE p = Except.ok true) ∧
    (∀ p : ExnPrefs, p.getString quickExitUrlKey = Except.ok Option.none →
       getQuickExitUrlE p = Except.ok "https://www.google.com") ∧
    (∀ (p : ExnPrefs) (e : String), p.getBool quickExitEnabledKey = Except.error e →
       isQuickExitEnabledE p = Except.error e) ∧
    (∀ (p : ExnPrefs) (e : String) (pl : Platform) (iconId : String),
       p.setString disguisedIconKey iconId = Except.error e →
       applyDisguisedIconE p pl iconId =
         { success := false, message := "Failed to change app icon: " ++ e,
           requiresRestart := false }) ∧
    (∀ (p : ExnPrefs) (e : String) (pl : Platform),
       p.setBool disguisedModeKey false = Except.error e →
       resetToDefaultIconE p pl =
         { success := false, message := "Failed to reset app icon: " ++ e,
           requiresRestart := false }) ∧
    (∀ e : String,
       getNetworkPrivacyStatus (Except.error e) =
         { level := NetworkPrivacyLevel.unknown, connectionType := "Unknown",
           warning := Option.none, suggestion := Option.none }) := by
  refine ⟨?_, ?_, ?_, ?_, ?_, ?_, fun e => rfl⟩
  · intro p h
    rw [isQuickExitEnabledE, h]
    rfl
  · intro p h
    rw [shouldShowSafetyTipsE, h]
    rfl
  · intro p h
    rw [getQuickExitUrlE, h]
    rfl
  · intro p e h
    rw [isQuickExitEnabledE, h]
    rfl
  · intro p e pl iconId h
    unfold applyDisguisedIconE
    rw [h]
  · intro p e pl h
    unfold resetToDefaultIconE
    rw [h]

/-- Witness for C6 (amended) at the empty and the failing store. -/
theorem storeFailure_behaviour_witness :
    isQuickExitEnabledE emptyStore = Except.ok false ∧
    isQuickExitEnabledE failingStore = Except.error "storage unavailable" ∧
    applyDisguisedIconE failingStore Platform.android "calculator" =
      { success := false,
        message := "Failed to change app icon: storage unavailable",
        requiresRestart := false } := by
  have h := storeFailure_behaviour
  exact ⟨h.1 emptyStore rfl,
         h.2.2.2.1 failingStore "storage unavailable" rfl,
         h.2.2.2.2.1 failingStore "storage unavailable" Platform.android "calculator" rfl⟩

/-- C7 counterexample: when the underlying write fails,
`SafetyProvider.applyDisguisedIcon` neither updates its cached disguise
state nor notifies subscribers — the cache update is not optimistic and the
notification does not fire after this failed mutation. -/
theorem facade_notify_counterexample :
    (providerApplyDisguisedIcon failingStore Platform.android
        (disguisedIcons.get ⟨0, by decide⟩) {}).2.notifications = 0 ∧
    (providerApplyDisguisedIcon failingStore Platform.android
        (disguisedIcons.get ⟨0, by decide⟩) {}).2.disguisedModeEnabled = false ∧
    (providerApplyDisguisedIcon failingStore Platform.android
        (disguisedIcons.get ⟨0, by decide⟩) {}).1.success = false := by
  exact ⟨rfl, rfl, rfl⟩

/-- C7 (amended): the five plain setters update their cached field before
the durable write and notify afterwards whenever the write returns (also
when it merely reports failure), the cache surviving a thrown write
un-rolled-back though the notification is then skipped;
`startIncognitoSession`, `endIncognitoSession` and `refreshNetworkStatus`
always notify; `clearAllHistory` notifies when the engine call returns; but
`applyDisguisedIcon` and `resetToDefaultIcon` run the engine call first and
update the cache and notify only when its result reports success. -/
theorem facade_mutation_cache_notify :
    (∀ (p : ExnPrefs) (b : Bool) (st : ProviderState),
       (providerSetQuickExitEnabled p b st).1.quickExitEnabled = b ∧
       (∀ r, p.setBool quickExitEnabledKey b = Except.ok r →
          (providerSetQuickExitEnabled p b st).1.notifications = st.notifications + 1) ∧
       (∀ e, p.setBool quickExitEnabledKey b = Except.error e →
          (providerSetQuickExitEnabled p b st).1.notifications = st.notifications ∧
          (providerSetQuickExitEnabled p b st).2 = Except.error e)) ∧
    (∀ (p : ExnPrefs) (u : String) (st : ProviderState),
       (providerSetQuickExitUrl p u st).1.quickExitUrl = u ∧
       ((providerSetQuickExitUrl p u st).2 = Except.ok () →
          (providerSetQuickExitUrl p u st).1.notifications = st.notifications + 1) ∧
       (∀ e, (providerSetQuickExitUrl p u st).2 = Except.error e →
          (providerSetQuickExitUrl p u st).1.notifications = st.notifications)) ∧
    (∀ (p : ExnPrefs) (b : Bool) (st : ProviderState),
       (providerSetShowSafetyTips p b st).1.showSafetyTips = b ∧
       ((providerSetShowSafetyTips p b st).2 = Except.ok () →
          (providerSetShowSafetyTips p b st).1.notifications = st.notifications + 1) ∧
       (∀ e, (providerSetShowSafetyTips p b st).2 = Except.error e →
          (providerSetShowSafetyTips p b st).1.notifications = st.notifications)) ∧
    (∀ (p : ExnPrefs) (b : Bool) (st : ProviderState),
       (providerSetNetworkWarningsEnabled p b st).1.networkWarningsEnabled = b ∧
       ((providerSetNetworkWarningsEnabled p b st).2 = Except.ok () →
          (providerSetNetworkWarningsEnabled p b st).1.notifications = st.notifications + 1) ∧
       (∀ e, (providerSetNetworkWarningsEnabled p b st).2 = Except.error e →
          (providerSetNetworkWarningsEnabled p b st).1.notifications = st.notifications)) ∧
    (∀ (p : ExnPrefs) (b : Bool) (st : ProviderState),
       (providerSetIncognitoModeEnabled p b st).1.incognitoModeEnabled = b ∧
       (providerSetIncognitoModeEnabled p b st).1.isIncognitoSession = b ∧
       ((providerSetIncognitoModeEnabled p b st).2 = Except.ok () →
          (providerSetIncognitoModeEnabled p b st).1.notifications = st.notifications + 1) ∧
       (∀ e, (providerSetIncognitoModeEnabled p b st).2 = Except.error e →
          (providerSetIncognitoModeEnabled p b st).1.notifications = st.notifications)) ∧
    (∀ st : ProviderState,
       (providerStartIncognitoSession st).notifications = st.notifications + 1 ∧
       (providerStartIncognitoSession st).isIncognitoSession = true) ∧
    (∀ st : ProviderState,
       (providerEndIncognitoSession st).notifications = st.notifications + 1 ∧
       (providerEndIncognitoSession st).isIncognitoSession = false) ∧
    (∀ (p : ExnPrefs) (st : ProviderState),
       ((providerClearAllHistory p st).2 = Except.ok () →
          (providerClearAllHistory p st).1.notifications = st.notifications + 1) ∧
       (∀ e, (providerClearAllHistory p st).2 = Except.error e →
          (providerClearAllHistory p st).1.notifications = st.notifications)) ∧
    (∀ (conn : Except String (List ConnectivityResult)) (st : ProviderState),
       (providerRefreshNetworkStatus conn st).notifications = st.notifications + 1 ∧
       (providerRefreshNetworkStatus conn st).networkStatus =
         some (getNetworkPrivacyStatus conn)) ∧
    (∀ (p : ExnPrefs) (pl : Platform) (icon : DisguisedAppIcon) (st : ProviderState),
       ((providerApplyDisguisedIcon p pl icon st).1.success = true →
          (providerApplyDisguisedIcon p pl icon st).2.notifications = st.notifications + 1 ∧
          (providerApplyDisguisedIcon p pl icon st).2.disguisedModeEnabled = true ∧
          (providerApplyDisguisedIcon p pl icon st).2.currentDisguisedIcon = some icon) ∧
       ((providerApplyDisguisedIcon p pl icon st).1.success = false →
          (providerApplyDisguisedIcon p pl icon st).2 = st)) ∧
    (∀ (p : ExnPrefs) (pl : Platform) (st : ProviderState),
       ((providerResetToDefaultIcon p pl st).1.success = true →
          (providerResetToDefaultIcon p pl st).2.notifications = st.notifications + 1 ∧
          (providerResetToDefaultIcon p pl st).2.disguisedModeEnabled = false ∧
          (providerResetToDefaultIcon p pl st).2.currentDisguisedIcon = Option.none) ∧
       ((providerResetToDefaultIcon p pl st).1.success = false →
          (providerResetToDefaultIcon p pl st).2 = st)) := by
  refine ⟨?_, ?_, ?_, ?_, ?_, ?_, ?_, ?_, ?_, ?_, ?_⟩
  · intro p b st
    cases h : p.setBool quickExitEnabledKey b <;>
      simp [providerSetQuickExitEnabled, h, notifyObservers]
  · intro p u st
    cases h : p.setString quickExitUrlKey u <;>
      simp [providerSetQuickExitUrl, h, notifyObservers]
  · intro p b st
    cases h : p.setBool showSafetyTipsKey b <;>
      simp [providerSetShowSafetyTips, h, notifyObservers]
  · intro p b st
    cases h : p.setBool networkWarningsKey b <;>
      simp [providerSetNetworkWarningsEnabled, h, notifyObservers]
  · intro p b st
    cases b with
    | false =>
      cases h : p.setBool incognitoModeKey false <;>
        simp [providerSetIncognitoModeEnabled, h, notifyObservers]
    | true =>
      cases h : p.setBool incognitoModeKey true with
      | error e => simp [providerSetIncognitoModeEnabled, h, notifyObservers]
      | ok r =>
        cases h2 : p.remove recentProgramsKey with
        | error e2 => simp [providerSetIncognitoModeEnabled, h, h2, notifyObservers]
        | ok r2 =>
          cases h3 : p.remove searchHistoryKey <;>
            simp [providerSetIncognitoModeEnabled, h, h2, h3, notifyObservers]
  · intro st
    simp [providerStartIncognitoSession, notifyObservers]
  · intro st
    simp [providerEndIncognitoSession, notifyObservers]
  · intro p st
    cases h2 : p.remove recentProgramsKey with
    | error e2 => simp [providerClearAllHistory, h2, notifyObservers]
    | ok r2 =>
      cases h3 : p.remove searchHistoryKey <;>
        simp [providerClearAllHistory, h2, h3, notifyObservers]
  · intro conn st
    simp [providerRefreshNetworkStatus, notifyObservers]
  · intro p pl icon st
    by_cases h : (applyDisguisedIconE p pl icon.id).success = true
    · simp [providerApplyDisguisedIcon, h, notifyObservers]
    · simp [providerApplyDisguisedIcon, h, notifyObservers]
  · intro p pl st
    by_cases h : (resetToDefaultIconE p pl).success = true
    · simp [providerResetToDefaultIcon, h, notifyObservers]
    · simp [providerResetToDefaultIcon, h, notifyObservers]

/-- Witness for C7 (amended) at the empty store and the fresh facade. -/
theorem facade_mutation_cache_notify_witness :
    (providerSetQuickExitEnabled emptyStore true {}).1.notifications = 1 ∧
    (providerApplyDisguisedIcon emptyStore Platform.other
        (disguisedIcons.get ⟨0, by decide⟩) {}).2.notifications = 1 := by
  have h := facade_mutation_cache_notify
  constructor
  · have h1 := (h.1 emptyStore true {}).2.1 true rfl
    simpa using h1
  · have h2 := (h.2.2.2.2.2.2.2.2.2.1 emptyStore Platform.other
      (disguisedIcons.get ⟨0, by decide⟩) {}).1 rfl
    simpa using h2.1

/-- C8: the facade's initialization is idempotent — a second call is a
no-op returning the state unchanged; the first call marks the facade
initialized and notifies exactly once even when a read fails, and when all
reads succeed it loads every cached field, subscribes to the network stream,
and starts an incognito session exactly when the persisted incognito
setting is true. -/
theorem providerInit_idempotent :
    (∀ (p : ExnPrefs) (conn : Except String (List ConnectivityResult)) (st : ProviderState),
       st.initialized = true → providerInit p conn st = st) ∧
    (∀ (p : ExnPrefs) (conn : Except String (List ConnectivityResult)) (st : ProviderState),
       st.initialized = false →
       (providerInit p conn st).initialized = true ∧
       (providerInit p conn st).notifications = st.notifications + 1) ∧
    (∀ (p : ExnPrefs) (conn : Except String (List ConnectivityResult)) (st : ProviderState)
       (v1 v3 v4 v5 v6 : Option Bool) (s1 v7 : Option String),
       st.initialized = false →
       p.getBool quickExitEnabledKey = Except.ok v1 →
       p.getString quickExitUrlKey = Except.ok s1 →
       p.getBool incognitoModeKey = Except.ok v3 →
       p.getBool showSafetyTipsKey = Except.ok v4 →
       p.getBool networkWarningsKey = Except.ok v5 →
       p.getBool disguisedModeKey = Except.ok v6 →
       p.getString disguisedIconKey = Except.ok v7 →
         (providerInit p conn st).quickExitEnabled = v1.getD false ∧
         (providerInit p conn st).quickExitUrl = s1.getD "https://www.google.com" ∧
         (providerInit p conn st).incognitoModeEnabled = v3.getD false ∧
         (providerInit p conn st).showSafetyTips = v4.getD true ∧
         (providerInit p conn st).networkWarningsEnabled = v5.getD true ∧
         (providerInit p conn st).networkStatus = some (getNetworkPrivacyStatus conn) ∧
         (providerInit p conn st).disguisedModeEnabled = v6.getD false ∧
         (providerInit p conn st).currentDisguisedIcon = getCurrentDisguisedIconOf v7 ∧
         (providerInit p conn st).subscribed = true ∧
         (providerInit p conn st).isIncognitoSession =
           (v3.getD false || st.svcIncognitoSession) ∧
         (providerInit p conn st).svcIncognitoSession =
           (v3.getD false || st.svcIncognitoSession) ∧
         (v3.getD false = true →
            (providerInit p conn st).svcSessionRecentPrograms = [] ∧
            (providerInit p conn st).svcSessionSearchHistory = [])) := by
  refine ⟨?_, ?_, ?_⟩
  · intro p conn st h
    simp [providerInit, h]
  · intro p conn st h
    unfold providerInit
    rw [if_neg (by simp [h])]
    cases h1 : p.getBool quickExitEnabledKey with
    | error e1 => simp [markReady, notifyObservers]
    | ok v1 =>
      cases h2 : p.getString quickExitUrlKey with
      | error e2 => simp [markReady, notifyObservers]
      | ok v2 =>
        cases h3 : p.getBool incognitoModeKey with
        | error e3 => simp [markReady, notifyObservers]
        | ok v3 =>
          cases h4 : p.getBool showSafetyTipsKey with
          | error e4 => simp [markReady, notifyObservers]
          | ok v4 =>
            cases h5 : p.getBool networkWarningsKey with
            | error e5 => simp [markReady, notifyObservers]
            | ok v5 =>
              cases h6 : p.getBool disguisedModeKey with
              | error e6 => simp [markReady, notifyObservers]
              | ok v6 =>
                cases h7 : p.getString disguisedIconKey with
                | error e7 => simp [markReady, notifyObservers]
                | ok v7 =>
                  cases hv : v3.getD false <;> simp [markReady, notifyObservers, hv]
  · intro p conn st v1 v3 v4 v5 v6 s1 v7 h h1 h2 h3 h4 h5 h6 h7
    unfold providerInit
    rw [if_neg (by simp [h]), h1, h2, h3, h4, h5, h6, h7]
    cases hv : v3.getD false <;>
      simp [markReady, notifyObservers, hv]

/-- Witness for C8 at the empty store, an empty connectivity reading and
the fresh facade state. -/
theorem providerInit_idempotent_witness :
    (providerInit emptyStore (Except.ok []) {}).initialized = true ∧
    (providerInit emptyStore (Except.ok []) {}).notifications = 1 ∧
    providerInit emptyStore (Except.ok [])
        (providerInit emptyStore (Except.ok []) {}) =
      providerInit emptyStore (Except.ok []) {} := by
  have h := providerInit_idempotent
  have h2 := h.2.1 emptyStore (Except.ok []) {} rfl
  exact ⟨h2.1, by simpa using h2.2, h.1 emptyStore (Except.ok []) _ h2.1⟩
